import Mathlib

/-!
Shallow embedding of the tubeai-app streaming analysis pipeline and its
supporting subsystems (rate limiter, in-memory cache, Reddit OAuth token
cache, provider adapters, and the streaming orchestrator), together with
proofs settling the specification claims about them.

Conventions of the embedding:
* JavaScript `Date.now()` instants and millisecond arithmetic become `Nat`.
* A fallible external call (axios request, OpenAI completion, JSON parse)
  becomes an explicit oracle argument of type `Except String α`: `.error e`
  is the call throwing with message `e`, `.ok v` is the call resolving.
* The orchestrator's SSE `send` calls become a pure list of `StreamEvent`s.
* Mutable maps (`Map<string, ...>`) become functions `String → Option _`,
  and a mutating method returns the updated map alongside its result.
-/

namespace TubeAI

/-! ### Data model, from `app/types.ts` -/

/-- Mirrors `interface YouTubeVideo` in `app/types.ts`. -/
structure YouTubeVideo where
  id : String
  title : String
  description : String
  publishedAt : String
  thumbnail : String
  url : String
deriving DecidableEq, Repr

/-- Mirrors `interface TopicAnalysis` in `app/types.ts`. -/
structure TopicAnalysis where
  topics : List String
  summary : String
deriving DecidableEq, Repr

/-- Mirrors `interface NewsArticle` in `app/types.ts`. -/
structure NewsArticle where
  title : String
  url : String
  source : String
  publishedAt : String
deriving DecidableEq, Repr

/-- Mirrors `interface RedditPost` in `app/types.ts`; the numeric `score`
and `created` fields are embedded as integers. -/
structure RedditPost where
  title : String
  url : String
  subreddit : String
  score : Int
  created : Int
deriving DecidableEq, Repr

/-- Mirrors `interface VideoIdea` in `app/types.ts`. -/
structure VideoIdea where
  title : String
  thumbDesign : String
  videoIdea : String
deriving DecidableEq, Repr

/-! ### Rate limiter, from `app/utils/rateLimit.ts`

`RateLimiter.check` reads and writes only the map entry stored under the
given identifier, so the embedding passes that one entry explicitly
(`Option RateLimitEntry`) and returns the updated entry for the key. -/

/-- Mirrors `interface RateLimitEntry` in `rateLimit.ts`. -/
structure RateLimitEntry where
  count : Nat
  resetAt : Nat
deriving DecidableEq, Repr

/-- Shape of the object returned by `RateLimiter.check`. `remaining` is an
integer because the source computes `maxRequests - 1` and
`maxRequests - entry.count` with JavaScript number arithmetic. -/
structure RateLimitResult where
  allowed : Bool
  remaining : Int
  resetAt : Nat
deriving DecidableEq, Repr

namespace RateLimiter

/-- The `// Create new window` branch of `RateLimiter.check`: stores
`{ count: 1, resetAt: now + windowSeconds * 1000 }` and returns
`allowed = true, remaining = maxRequests - 1`. -/
def newWindow (now maxRequests windowSeconds : Nat) :
    RateLimitResult × RateLimitEntry :=
  let resetAt := now + windowSeconds * 1000
  ({ allowed := true, remaining := (maxRequests : Int) - 1, resetAt := resetAt },
   { count := 1, resetAt := resetAt })

/-- Mirrors `RateLimiter.check(identifier, maxRequests, windowSeconds)` in
`rateLimit.ts`, with `entry` the map entry stored under `identifier` and
`now` the value of `Date.now()`.  Source control flow:
`if (!entry || now > entry.resetAt)` create a new window; else
`if (entry.count >= maxRequests)` deny without consuming a slot; else
increment the count. -/
def check (now maxRequests windowSeconds : Nat)
    (entry : Option RateLimitEntry) : RateLimitResult × RateLimitEntry :=
  match entry with
  | none => newWindow now maxRequests windowSeconds
  | some e =>
    if now > e.resetAt then
      newWindow now maxRequests windowSeconds
    else if e.count ≥ maxRequests then
      ({ allowed := false, remaining := 0, resetAt := e.resetAt }, e)
    else
      ({ allowed := true, remaining := (maxRequests : Int) - (e.count + 1),
         resetAt := e.resetAt },
       { count := e.count + 1, resetAt := e.resetAt })

/-- Iterates `check` for one identity over a list of call instants,
threading the stored entry, and collects the results in call order. -/
def checkSeq (maxRequests windowSeconds : Nat) :
    List Nat → Option RateLimitEntry →
    List RateLimitResult × Option RateLimitEntry
  | [], entry => ([], entry)
  | t :: ts, entry =>
    let step := check t maxRequests windowSeconds entry
    let rest := checkSeq maxRequests windowSeconds ts (some step.2)
    (step.1 :: rest.1, rest.2)

/-- Expected `allowed` flags of `n` in-window calls starting from a stored
count of `c`: a call is allowed exactly when the count before it is below
`maxRequests`, and only allowed calls consume a slot. -/
def expectedFlags (maxRequests : Nat) : Nat → Nat → List Bool
  | _, 0 => []
  | c, n + 1 =>
    decide (c < maxRequests) ::
      expectedFlags maxRequests (if c < maxRequests then c + 1 else c) n

end RateLimiter

/-! ### In-memory cache, from `app/utils/cache.ts` -/

/-- Mirrors `interface CacheEntry<T>` in `cache.ts`. -/
structure CacheEntry (α : Type) where
  data : α
  expiresAt : Nat
deriving DecidableEq, Repr

/-- The `Map<string, CacheEntry<any>>` backing `SimpleCache`, embedded as a
lookup function. -/
def CacheMap (α : Type) : Type := String → Option (CacheEntry α)

namespace SimpleCache

/-- Mirrors `SimpleCache.set`: overwrites unconditionally with
`expiresAt = Date.now() + ttlSeconds * 1000`. -/
def set {α : Type} (cache : CacheMap α) (key : String) (data : α)
    (ttlSeconds now : Nat) : CacheMap α :=
  fun k =>
    if k = key then some { data := data, expiresAt := now + ttlSeconds * 1000 }
    else cache k

/-- Mirrors `SimpleCache.delete`. -/
def delete {α : Type} (cache : CacheMap α) (key : String) : CacheMap α :=
  fun k => if k = key then none else cache k

/-- Mirrors `SimpleCache.get`: a missing entry yields `null`; an entry with
`Date.now() > entry.expiresAt` is deleted (lazy eviction) and yields
`null`; otherwise the stored data is returned.  The updated map is
returned alongside the result. -/
def get {α : Type} (cache : CacheMap α) (key : String) (now : Nat) :
    Option α × CacheMap α :=
  match cache key with
  | none => (none, cache)
  | some entry =>
    if now > entry.expiresAt then (none, delete cache key)
    else (some entry.data, cache)

end SimpleCache

/-! ### Reddit OAuth token cache, from `app/lib/reddit-oauth.ts` -/

/-- The value cached under `'reddit:access_token'`:
`{ token: string; expiresAt: number }`. -/
structure TokenCacheValue where
  token : String
  expiresAt : Nat
deriving DecidableEq, Repr

/-- Outcome of the client-credentials exchange POST to
`www.reddit.com/api/v1/access_token`: either the parsed
`{ access_token, expires_in }` fields, or the request throwing. -/
inductive TokenExchange
  | success (access_token : String) (expires_in : Nat)
  | failure
deriving DecidableEq, Repr

/-- Observable outcome of one `getRedditAccessToken()` call: the returned
token (or `null`), how many credential-exchange attempts were made, and
the `setCached` write performed, recorded as the stored value together
with the `ttlSeconds` argument passed to `setCached`. -/
structure TokenFetchOutcome where
  result : Option String
  attempts : Nat
  cacheWrite : Option (TokenCacheValue × Int)
deriving DecidableEq, Repr

/-- The `try { ... } catch { return null }` body of `getRedditAccessToken`
once the cached token has been rejected: one exchange attempt; on success
the token is cached with `expiresAt = Date.now() + expires_in * 1000` and
`ttlSeconds = expires_in - 60`, and returned; on failure `null` is
returned without throwing. -/
def redditExchangeAttempt (now : Nat) (exchange : TokenExchange) :
    TokenFetchOutcome :=
  match exchange with
  | .success access_token expires_in =>
    { result := some access_token, attempts := 1,
      cacheWrite := some
        ({ token := access_token, expiresAt := now + expires_in * 1000 },
         (expires_in : Int) - 60) }
  | .failure => { result := none, attempts := 0 + 1, cacheWrite := none }

/-- Mirrors `getRedditAccessToken()` in `reddit-oauth.ts`.
`credsConfigured` is whether `REDDIT_CLIENT_ID` and `REDDIT_CLIENT_SECRET`
are both set; `cached` is the cache lookup under `'reddit:access_token'`;
`now` is `Date.now()`.  Source control flow: missing credentials return
`null`; a cached value with `cached.expiresAt > Date.now() + 60000` is
returned unchanged; otherwise the exchange runs. -/
def getRedditAccessToken (credsConfigured : Bool)
    (cached : Option TokenCacheValue) (now : Nat)
    (exchange : TokenExchange) : TokenFetchOutcome :=
  if credsConfigured then
    match cached with
    | some c =>
      if c.expiresAt > now + 60000 then
        { result := some c.token, attempts := 0, cacheWrite := none }
      else redditExchangeAttempt now exchange
    | none => redditExchangeAttempt now exchange
  else { result := none, attempts := 0, cacheWrite := none }

/-! ### Provider adapters -/

/-- Mirrors `fetchRelevantNews(topics)` in `app/lib/external-apis.ts`:
empty topic list short-circuits to `[]`; without `NEWS_API_KEY` the
function returns `[]`; the NewsAPI request is wrapped in
`try { ... } catch { return [] }`, so a throwing call degrades to `[]`.
`api` is the outcome of the request, already mapped to articles. -/
def fetchRelevantNews (hasNewsKey : Bool)
    (api : Except String (List NewsArticle)) (topics : List String) :
    List NewsArticle :=
  if topics.length = 0 then []
  else if hasNewsKey then
    match api with
    | .ok articles => articles
    | .error _ => []
  else []

/-- Mirrors `searchRedditWithOAuth(topic)` in `external-apis.ts`: with no
obtainable token it returns `[]` at once; the authenticated request is
wrapped in `try { ... } catch { return [] }`.  `oauthApi` is the outcome
of the `oauth.reddit.com/search` request, already mapped to posts (a
missing or malformed `children` field maps to `.ok []`). -/
def searchRedditWithOAuth (accessToken : Option String)
    (oauthApi : Except String (List RedditPost)) : List RedditPost :=
  match accessToken with
  | none => []
  | some _ =>
    match oauthApi with
    | .ok posts => posts
    | .error _ => []

/-- Mirrors `searchRedditPublic(topic)` in `external-apis.ts`: the public
`www.reddit.com/search.json` request is wrapped in
`try { ... } catch { return [] }` and 4xx statuses are not thrown
(`validateStatus`), so a failing call degrades to `[]`. -/
def searchRedditPublic (publicApi : Except String (List RedditPost)) :
    List RedditPost :=
  match publicApi with
  | .ok posts => posts
  | .error _ => []

/-- Per-topic body of the loop in `searchRedditPosts`: with OAuth
credentials configured try the authenticated path first and fall back to
the public endpoint when it yields zero results; without credentials go
directly to the public endpoint. -/
def searchRedditTopic (hasOAuth : Bool) (accessToken : Option String)
    (oauthApi publicApi : Except String (List RedditPost)) :
    List RedditPost :=
  if hasOAuth then
    let posts := searchRedditWithOAuth accessToken oauthApi
    if posts.length = 0 then searchRedditPublic publicApi else posts
  else searchRedditPublic publicApi

/-- Recursion worker for `dedupByUrl`: `seen` holds the urls of the
occurrences already kept, so an element is kept exactly when no earlier
element had its url. -/
def dedupByUrlAux (seen : List String) : List RedditPost → List RedditPost
  | [] => []
  | p :: ps =>
    if p.url ∈ seen then dedupByUrlAux seen ps
    else p :: dedupByUrlAux (p.url :: seen) ps

/-- Mirrors the `uniquePosts` filter in `searchRedditPosts`:
`allPosts.filter((post, index, self) => index === self.findIndex(p => p.url === post.url))`,
which keeps exactly the first occurrence of each `url`. -/
def dedupByUrl (allPosts : List RedditPost) : List RedditPost :=
  dedupByUrlAux [] allPosts

/-- Stable descending insertion implementing the comparator of
`uniquePosts.sort((a, b) => b.score - a.score)`: an element is placed
before the first element of strictly smaller score, so elements of equal
score keep their relative order. -/
def insertScoreDesc (p : RedditPost) : List RedditPost → List RedditPost
  | [] => [p]
  | q :: qs =>
    if q.score < p.score then p :: q :: qs else q :: insertScoreDesc p qs

/-- Stable sort by score descending, the observable behaviour of
`uniquePosts.sort((a, b) => b.score - a.score)` (JavaScript
`Array.prototype.sort` is stable). -/
def sortByScoreDesc (l : List RedditPost) : List RedditPost :=
  l.foldl (fun acc p => insertScoreDesc p acc) []

/-- Mirrors the pooled post-processing tail of `searchRedditPosts`:
de-duplicate by url (first occurrence wins), sort by score descending, and
truncate with `.slice(0, 15)`. -/
def processRedditPosts (allPosts : List RedditPost) : List RedditPost :=
  (sortByScoreDesc (dedupByUrl allPosts)).take 15

/-- Mirrors the exported `searchRedditPosts(topics)` in `external-apis.ts`
(the OAuth-aware version): empty topic list short-circuits; the loop runs
over `topics.slice(0, 3)`, pooling each topic's posts (a topic
contributing `[]` adds nothing); the pool is then de-duplicated, sorted
and truncated.  `accessToken` is the token obtained inside
`searchRedditWithOAuth`; `oauthApi` and `publicApi` give each topic's
request outcomes. -/
def searchRedditPosts (hasOAuth : Bool) (accessToken : Option String)
    (oauthApi publicApi : String → Except String (List RedditPost))
    (topics : List String) : List RedditPost :=
  if topics.length = 0 then []
  else
    processRedditPosts
      ((topics.take 3).flatMap fun t =>
        searchRedditTopic hasOAuth accessToken (oauthApi t) (publicApi t))

/-- Items `[0]` of the `youtube.channels.list` response used by
`fetchChannelVideos`: `snippet.title` and
`contentDetails.relatedPlaylists.uploads`, each possibly missing. -/
structure ChannelListResponse where
  channelTitle : Option String
  uploadsPlaylistId : Option String
deriving DecidableEq, Repr

/-- Mirrors `fetchChannelVideos(channelId)` in `app/lib/youtube-service.ts`.
`cached` is the cache lookup; `channelsApi`, `playlistItemsApi` and
`videosApi` are the three YouTube API calls (`playlistItemsApi` yields the
`contentDetails.videoId` of each playlist item, possibly missing).  The
function has no try/catch: a throwing API call propagates, and it itself
throws `'Could not find uploads playlist'` and `'No videos found'`. -/
def fetchChannelVideos (cached : Option (List YouTubeVideo × String))
    (channelsApi : Except String ChannelListResponse)
    (playlistItemsApi : Except String (List (Option String)))
    (videosApi : List String → Except String (List YouTubeVideo)) :
    Except String (List YouTubeVideo × String) :=
  match cached with
  | some c => .ok c
  | none =>
    match channelsApi with
    | .error e => .error e
    | .ok ch =>
      let channelName := ch.channelTitle.getD "Unknown Channel"
      match ch.uploadsPlaylistId with
      | none => .error "Could not find uploads playlist"
      | some _ =>
        match playlistItemsApi with
        | .error e => .error e
        | .ok items =>
          let videoIds := items.filterMap id
          if videoIds.length = 0 then .error "No videos found"
          else
            match videosApi videoIds with
            | .error e => .error e
            | .ok videos => .ok (videos, channelName)

/-- Fields of the JSON object returned by the topic-analysis completion,
each possibly missing (`response.topics`, `response.summary`). -/
structure ParsedTopicsResponse where
  topics : Option (List String)
  summary : Option String
deriving DecidableEq, Repr

/-- Mirrors `analyzeTopics(videos)` in `app/lib/ai-service.ts` at the level
of its control flow: a cache hit is returned at once; otherwise the OpenAI
completion (and the `JSON.parse` of its content) runs with no surrounding
try/catch, so a throwing call propagates to the caller; on success the
missing fields default (`response.topics || []`, `response.summary || ''`). -/
def analyzeTopics (cached : Option TopicAnalysis)
    (completion : Except String ParsedTopicsResponse) :
    Except String TopicAnalysis :=
  match cached with
  | some c => .ok c
  | none =>
    match completion with
    | .error e => .error e
    | .ok r => .ok { topics := r.topics.getD [], summary := r.summary.getD "" }

/-! ### Streaming orchestrator, from `app/api/analyze-stream/route.ts`
(the `POST` handler given as `src/unnamed/part_004`) -/

/-- One SSE message written by `send({ type, ... })` in the `POST` handler,
one constructor per `type` value. -/
inductive StreamEvent
  | status (message : String)
  | videos (videos : List YouTubeVideo) (channelName : String)
  | topics (data : TopicAnalysis)
  | news (data : List NewsArticle)
  | reddit (data : List RedditPost)
  | ideas (data : List VideoIdea)
  | error (message : String)
  | complete
deriving DecidableEq, Repr

/-- Terminal events of a run: `complete` and `error`. -/
def StreamEvent.isTerminal : StreamEvent → Bool
  | .complete => true
  | .error _ => true
  | _ => false

/-- The `error.message || 'An error occurred'` formatting applied by the
handler's catch-all to a thrown error's message. -/
def catchMessage (e : String) : String :=
  if e = "" then "An error occurred" else e

/-- Outcomes of every suspension point of one `POST` run, in program
order.  `reqJson` is `await request.json()` mapped to its `url` field
(`.error` models the parse throwing); `ideasGenerate` is
`generateVideoIdeas`, a function of the news and reddit arguments it is
invoked with so that the invocation arguments are observable. -/
structure PipelineInput where
  ipRateLimit : RateLimitResult
  reqJson : Except String (Option String)
  keysConfigured : Bool
  channelId : Option String
  channelRateLimit : RateLimitResult
  videosFetch : Except String (List YouTubeVideo × String)
  topicsAnalyze : Except String TopicAnalysis
  newsSettled : Except String (List NewsArticle)
  redditSettled : Except String (List RedditPost)
  ideasGenerate : List NewsArticle → List RedditPost →
    Except String (List VideoIdea)

/-- Mirrors the async body of `POST` in `analyze-stream/route.ts`: the
emitted event sequence, paired with the `(news, redditPosts)` arguments
`generateVideoIdeas` was invoked with (`none` when it was never reached).
Every throwing step is caught by the surrounding `try`/`catch`, which
emits `error(error.message || 'An error occurred')` and closes.  The
`Promise.allSettled` pair substitutes `[]` for a rejected branch, and the
`news`/`reddit` events are emitted only for non-empty payloads.  The
rate-limit error message embeds the reset instant (the source formats it
with `toLocaleTimeString`; the embedding prints the raw number). -/
def runPipeline (i : PipelineInput) :
    List StreamEvent × Option (List NewsArticle × List RedditPost) :=
  if i.ipRateLimit.allowed = false then
    ([.error ("Rate limit exceeded. Please try again after " ++
        toString i.ipRateLimit.resetAt)], none)
  else
    match i.reqJson with
    | .error e => ([.error (catchMessage e)], none)
    | .ok none => ([.error "URL is required"], none)
    | .ok (some _) =>
      if i.keysConfigured = false then
        ([.error "API keys not configured"], none)
      else
        let afterStatus :
            List StreamEvent × Option (List NewsArticle × List RedditPost) :=
          match i.channelId with
          | none => ([.error "Could not extract channel ID from URL"], none)
          | some _ =>
            if i.channelRateLimit.allowed = false then
              ([.error
                  "Too many requests for this channel. Please try again later."],
               none)
            else
              match i.videosFetch with
              | .error e => ([.error (catchMessage e)], none)
              | .ok (videos, channelName) =>
                let afterVideos :
                    List StreamEvent ×
                      Option (List NewsArticle × List RedditPost) :=
                  match i.topicsAnalyze with
                  | .error e => ([.error (catchMessage e)], none)
                  | .ok topicsRes =>
                    let news :=
                      match i.newsSettled with
                      | .ok n => n
                      | .error _ => []
                    let redditPosts :=
                      match i.redditSettled with
                      | .ok r => r
                      | .error _ => []
                    let newsEvents :=
                      if news.length > 0 then [StreamEvent.news news] else []
                    let redditEvents :=
                      if redditPosts.length > 0 then
                        [StreamEvent.reddit redditPosts]
                      else []
                    let afterIdeas :
                        List StreamEvent ×
                          Option (List NewsArticle × List RedditPost) :=
                      match i.ideasGenerate news redditPosts with
                      | .error e =>
                        ([.error (catchMessage e)], some (news, redditPosts))
                      | .ok videoIdeas =>
                        ([.ideas videoIdeas, .complete],
                         some (news, redditPosts))
                    (StreamEvent.topics topicsRes ::
                       StreamEvent.status
                         "Fetching news and Reddit discussions..." ::
                       (newsEvents ++ redditEvents ++
                         (StreamEvent.status "Generating video ideas..." ::
                           afterIdeas.1)),
                     afterIdeas.2)
                (StreamEvent.videos videos channelName ::
                   StreamEvent.status "Analyzing topics..." :: afterVideos.1,
                 afterVideos.2)
        (StreamEvent.status "Fetching channel videos..." :: afterStatus.1,
         afterStatus.2)

/-! ### Concrete sample data used to exercise the definitions -/

/-- Sample Reddit post with url `https://reddit.com/a` and score 50. -/
def samplePost1 : RedditPost :=
  { title := "p1", url := "https://reddit.com/a", subreddit := "r1",
    score := 50, created := 0 }

/-- Sample Reddit post with url `https://reddit.com/b` and score 90. -/
def samplePost2 : RedditPost :=
  { title := "p2", url := "https://reddit.com/b", subreddit := "r2",
    score := 90, created := 0 }

/-- Sample Reddit post sharing its url with `samplePost1`. -/
def samplePost3 : RedditPost :=
  { title := "p1-dup", url := "https://reddit.com/a", subreddit := "r3",
    score := 70, created := 0 }

/-- Sample pooled list with a duplicated canonical url. -/
def samplePool : List RedditPost := [samplePost1, samplePost2, samplePost3]

/-- Sample news article. -/
def sampleArticle : NewsArticle :=
  { title := "a1", url := "https://news.example/1", source := "src",
    publishedAt := "2025-01-01" }

/-- Sample video idea. -/
def sampleIdea : VideoIdea :=
  { title := "t", thumbDesign := "d", videoIdea := "v" }

/-- Sample channel video. -/
def sampleVideo : YouTubeVideo :=
  { id := "vid1", title := "title", description := "desc",
    publishedAt := "2025-01-01", thumbnail := "thumb",
    url := "https://www.youtube.com/watch?v=vid1" }

/-- Sample topic analysis. -/
def sampleTopics : TopicAnalysis := { topics := ["ai"], summary := "s" }

/-- Sample cache map holding value 7 under key `"a"`, expiring at 100. -/
def sampleCacheMap : CacheMap Nat :=
  fun k => if k = "a" then some { data := 7, expiresAt := 100 } else none

/-- Pipeline input realising the end-to-end scenario of claim C1: all
stages succeed except the news fetch, which rejects, while the Reddit
fetch fulfills with three posts. -/
def claim1Input : PipelineInput :=
  { ipRateLimit := { allowed := true, remaining := 9, resetAt := 60000 }
    reqJson := .ok (some "https://www.youtube.com/@chan")
    keysConfigured := true
    channelId := some "UC123"
    channelRateLimit := { allowed := true, remaining := 4, resetAt := 300000 }
    videosFetch := .ok ([sampleVideo], "Chan")
    topicsAnalyze := .ok sampleTopics
    newsSettled := .error "news api down"
    redditSettled := .ok [samplePost1, samplePost2, samplePost3]
    ideasGenerate := fun _ _ => .ok [sampleIdea] }

/-- Pipeline input whose idea-generation stage succeeds with an empty
list of ideas. -/
def claim3EmptyIdeasInput : PipelineInput :=
  { ipRateLimit := { allowed := true, remaining := 9, resetAt := 60000 }
    reqJson := .ok (some "https://www.youtube.com/@chan")
    keysConfigured := true
    channelId := some "UC123"
    channelRateLimit := { allowed := true, remaining := 4, resetAt := 300000 }
    videosFetch := .ok ([sampleVideo], "Chan")
    topicsAnalyze := .ok sampleTopics
    newsSettled := .ok []
    redditSettled := .ok []
    ideasGenerate := fun _ _ => .ok [] }

/-- Pipeline input whose news and Reddit fetches both fulfill with
non-empty lists. -/
def claim3NewsInput : PipelineInput :=
  { ipRateLimit := { allowed := true, remaining := 9, resetAt := 60000 }
    reqJson := .ok (some "https://www.youtube.com/@chan")
    keysConfigured := true
    channelId := some "UC123"
    channelRateLimit := { allowed := true, remaining := 4, resetAt := 300000 }
    videosFetch := .ok ([sampleVideo], "Chan")
    topicsAnalyze := .ok sampleTopics
    newsSettled := .ok [sampleArticle]
    redditSettled := .ok [samplePost1]
    ideasGenerate := fun _ _ => .ok [sampleIdea] }

/-! ## Theorems -/

/-! ### Rate limiter -/

/-- Helper: iterating `check` over call instants that all lie at or before
the stored reset instant keeps the stored window: every result carries the
stored `resetAt`, and the `allowed` flags follow `expectedFlags`. -/
theorem checkSeq_inWindow (maxRequests windowSeconds : Nat) :
    ∀ (ts : List Nat) (c R : Nat), (∀ t ∈ ts, t ≤ R) →
    ((RateLimiter.checkSeq maxRequests windowSeconds ts
        (some { count := c, resetAt := R })).1.map RateLimitResult.allowed
      = RateLimiter.expectedFlags maxRequests c ts.length) ∧
    ∀ r ∈ (RateLimiter.checkSeq maxRequests windowSeconds ts
        (some { count := c, resetAt := R })).1, r.resetAt = R := by
  intro ts
  induction ts with
  | nil =>
    intro c R _
    simp [RateLimiter.checkSeq, RateLimiter.expectedFlags]
  | cons t ts ih =>
    intro c R h
    have ht : ¬ (t > R) := by
      have := h t (by simp)
      omega
    have hrest : ∀ u ∈ ts, u ≤ R := fun u hu => h u (by simp [hu])
    by_cases hc : c < maxRequests
    · have hge : ¬ (c ≥ maxRequests) := by omega
      have hstep := ih (c + 1) R hrest
      constructor
      · simp only [RateLimiter.checkSeq, RateLimiter.check, if_neg ht,
          if_neg hge, List.map_cons, List.length_cons,
          RateLimiter.expectedFlags, if_pos hc, decide_eq_true hc]
        rw [hstep.1]
      · simp only [RateLimiter.checkSeq, RateLimiter.check, if_neg ht,
          if_neg hge, List.mem_cons]
        rintro r (rfl | hr)
        · rfl
        · exact hstep.2 r hr
    · have hge : c ≥ maxRequests := by omega
      have hstep := ih c R hrest
      constructor
      · simp only [RateLimiter.checkSeq, RateLimiter.check, if_neg ht,
          if_pos hge, List.map_cons, List.length_cons,
          RateLimiter.expectedFlags, if_neg hc, decide_eq_false hc]
        rw [hstep.1]
      · simp only [RateLimiter.checkSeq, RateLimiter.check, if_neg ht,
          if_pos hge, List.mem_cons]
        rintro r (rfl | hr)
        · rfl
        · exact hstep.2 r hr

/-- C6: for any identity, 11 consecutive `check` calls with
`maxRequests = 10` all falling within one window (no call instant strictly
after the reset instant created by the first call) return `allowed = true`
for the first 10 calls and `allowed = false` for the 11th, and all 11
results carry the same `resetAt`. -/
theorem claim6_eleven_calls (t0 windowSeconds : Nat) (ts : List Nat)
    (hlen : ts.length = 10)
    (hin : ∀ t ∈ ts, t ≤ t0 + windowSeconds * 1000) :
    ((RateLimiter.checkSeq 10 windowSeconds (t0 :: ts) none).1.map
        RateLimitResult.allowed
      = [true, true, true, true, true, true, true, true, true, true,
         false]) ∧
    ∀ r ∈ (RateLimiter.checkSeq 10 windowSeconds (t0 :: ts) none).1,
      r.resetAt = t0 + windowSeconds * 1000 := by
  have hrec := checkSeq_inWindow 10 windowSeconds ts 1
    (t0 + windowSeconds * 1000) hin
  simp only [RateLimiter.checkSeq, RateLimiter.check,
    RateLimiter.newWindow, List.map_cons, List.mem_cons]
  constructor
  · rw [hrec.1, hlen]
    rfl
  · rintro r (rfl | hr)
    · rfl
    · exact hrec.2 r hr

/-- Witness for C6 at a concrete run: eleven calls at instant 0 against a
60-second window. -/
theorem claim6_witness :
    ((RateLimiter.checkSeq 10 60 (0 :: [0, 0, 0, 0, 0, 0, 0, 0, 0, 0])
        none).1.map RateLimitResult.allowed
      = [true, true, true, true, true, true, true, true, true, true,
         false]) ∧
    ∀ r ∈ (RateLimiter.checkSeq 10 60
        (0 :: [0, 0, 0, 0, 0, 0, 0, 0, 0, 0]) none).1,
      r.resetAt = 0 + 60 * 1000 :=
  claim6_eleven_calls 0 60 [0, 0, 0, 0, 0, 0, 0, 0, 0, 0] (by decide)
    (by decide)

/-- C5 as stated is false on the code: a `check` call arriving exactly at
the stored `resetAt` (here with a full window of 10/10) is counted against
the old window and denied, instead of starting a fresh window with
`count = 1` and `allowed = true`. -/
theorem claim5_counterexample :
    (RateLimiter.check 5000 10 60
        (some { count := 10, resetAt := 5000 })).1.allowed = false ∧
    (RateLimiter.check 5000 10 60
        (some { count := 10, resetAt := 5000 })).2.count ≠ 1 ∧
    (RateLimiter.check 5000 10 60 (some { count := 10, resetAt := 5000 })).1
      ≠ (RateLimiter.newWindow 5000 10 60).1 := by
  decide

/-- C5 amended: a check call arriving exactly at the stored `resetAt` is
counted against the old window — the stored reset instant is kept in the
result and in the stored entry, and the call is allowed exactly when the
stored count is below `maxRequests`; a fresh window is started only by a
call arriving strictly after `resetAt`. -/
theorem claim5_amended_reset_boundary (maxRequests windowSeconds now : Nat)
    (e : RateLimitEntry) (hafter : e.resetAt < now) :
    (RateLimiter.check e.resetAt maxRequests windowSeconds
        (some e)).1.resetAt = e.resetAt ∧
    (RateLimiter.check e.resetAt maxRequests windowSeconds
        (some e)).1.allowed = decide (e.count < maxRequests) ∧
    (RateLimiter.check e.resetAt maxRequests windowSeconds
        (some e)).2.resetAt = e.resetAt ∧
    RateLimiter.check now maxRequests windowSeconds (some e)
      = RateLimiter.newWindow now maxRequests windowSeconds := by
  have hb : ¬ (e.resetAt > e.resetAt) := by omega
  refine ⟨?_, ?_, ?_, ?_⟩
  · by_cases hc : e.count ≥ maxRequests <;>
      simp [RateLimiter.check, hb, hc]
  · by_cases hc : e.count ≥ maxRequests
    · have hlt : ¬ (e.count < maxRequests) := by omega
      simp [RateLimiter.check, hb, hc, hlt]
    · have hlt : e.count < maxRequests := by omega
      simp [RateLimiter.check, hb, hc, hlt]
  · by_cases hc : e.count ≥ maxRequests <;>
      simp [RateLimiter.check, hb, hc]
  · simp [RateLimiter.check, hafter]

/-- Witness for the amended C5 at a concrete entry: a full window with
`resetAt = 5000`, probed at 5000 and at 5001. -/
theorem claim5_witness :
    (RateLimiter.check 5000 10 60
        (some { count := 10, resetAt := 5000 })).1.resetAt = 5000 ∧
    (RateLimiter.check 5000 10 60
        (some { count := 10, resetAt := 5000 })).1.allowed
      = decide ((10 : Nat) < 10) ∧
    (RateLimiter.check 5000 10 60
        (some { count := 10, resetAt := 5000 })).2.resetAt = 5000 ∧
    RateLimiter.check 5001 10 60 (some { count := 10, resetAt := 5000 })
      = RateLimiter.newWindow 5001 10 60 :=
  claim5_amended_reset_boundary 10 60 5001 { count := 10, resetAt := 5000 }
    (by decide)

/-! ### In-memory cache -/

/-- C8: for the in-memory cache and every key, value and ttl, `set`
followed by an immediate `get` of the same key returns the value; a `get`
performed after a stored entry's expiry has passed returns absent and
removes the entry from the store (lazy eviction); and a `get` of a deleted
key returns absent at every instant until a new `set`. -/
theorem claim8_simple_cache {α : Type} (cache : CacheMap α) (key : String)
    (v : α) (ttl now now2 : Nat) (e : CacheEntry α)
    (hstored : cache key = some e) (hexp : now2 > e.expiresAt) :
    (SimpleCache.get (SimpleCache.set cache key v ttl now) key now).1
      = some v ∧
    (SimpleCache.get cache key now2).1 = none ∧
    (SimpleCache.get cache key now2).2 key = none ∧
    ∀ n, (SimpleCache.get (SimpleCache.delete cache key) key n).1 = none := by
  refine ⟨?_, ?_, ?_, ?_⟩
  · have hfresh : ¬ (now > now + ttl * 1000) := by omega
    simp [SimpleCache.get, SimpleCache.set, hfresh]
  · simp [SimpleCache.get, hstored, hexp]
  · simp [SimpleCache.get, SimpleCache.delete, hstored, hexp]
  · intro n
    simp [SimpleCache.get, SimpleCache.delete]

/-- Witness for C8 on a concrete cache: key `"a"` holds 7 with expiry 100;
set/get round-trips 5, a read at 101 evicts, and a read after delete is
absent. -/
theorem claim8_witness :
    (SimpleCache.get (SimpleCache.set sampleCacheMap "a" 5 10 0) "a" 0).1
      = some 5 ∧
    (SimpleCache.get sampleCacheMap "a" 101).1 = none ∧
    (SimpleCache.get sampleCacheMap "a" 101).2 "a" = none ∧
    (SimpleCache.get (SimpleCache.delete sampleCacheMap "a") "a" 7).1
      = none := by
  have h := claim8_simple_cache sampleCacheMap "a" 5 10 0 101
    { data := 7, expiresAt := 100 } rfl (by decide)
  exact ⟨h.1, h.2.1, h.2.2.1, h.2.2.2 7⟩

/-! ### Reddit OAuth token cache -/

/-- C7: with credentials configured, the token cache returns a cached
bearer token unchanged — with no exchange attempt and no cache write —
whenever its stored expiry is more than 60 seconds (60000 ms) in the
future; when the stored token is within 60 seconds of expiry, or absent,
it performs exactly one credential-exchange attempt, on success stores a
record expiring at `now + expires_in * 1000` with cache TTL
`expires_in - 60` seconds and returns the new bearer value, and on failure
returns absent without throwing. -/
theorem claim7_token_cache (c cStale : TokenCacheValue) (now : Nat)
    (tok : String) (exp_in : Nat) (exchange : TokenExchange)
    (hfresh : c.expiresAt > now + 60000)
    (hstale : ¬ cStale.expiresAt > now + 60000) :
    getRedditAccessToken true (some c) now exchange
      = { result := some c.token, attempts := 0, cacheWrite := none } ∧
    getRedditAccessToken true (some cStale) now (.success tok exp_in)
      = { result := some tok, attempts := 1,
          cacheWrite := some
            ({ token := tok, expiresAt := now + exp_in * 1000 },
             (exp_in : Int) - 60) } ∧
    getRedditAccessToken true (some cStale) now .failure
      = { result := none, attempts := 1, cacheWrite := none } ∧
    getRedditAccessToken true none now (.success tok exp_in)
      = { result := some tok, attempts := 1,
          cacheWrite := some
            ({ token := tok, expiresAt := now + exp_in * 1000 },
             (exp_in : Int) - 60) } ∧
    getRedditAccessToken true none now .failure
      = { result := none, attempts := 1, cacheWrite := none } := by
  refine ⟨?_, ?_, ?_, ?_, ?_⟩ <;>
    simp [getRedditAccessToken, redditExchangeAttempt, hfresh, hstale]

/-- Witness for C7 at concrete values: a cached token expiring at 200000
read at instant 0, and a stale one expiring at 50000, with a declared
lifetime of 3600 seconds on refresh. -/
theorem claim7_witness :
    getRedditAccessToken true
        (some { token := "cached", expiresAt := 200000 }) 0 .failure
      = { result := some "cached", attempts := 0, cacheWrite := none } ∧
    getRedditAccessToken true
        (some { token := "old", expiresAt := 50000 }) 0
        (.success "fresh" 3600)
      = { result := some "fresh", attempts := 1,
          cacheWrite := some
            ({ token := "fresh", expiresAt := 0 + 3600 * 1000 },
             (3600 : Int) - 60) } ∧
    getRedditAccessToken true
        (some { token := "old", expiresAt := 50000 }) 0 .failure
      = { result := none, attempts := 1, cacheWrite := none } ∧
    getRedditAccessToken true none 0 (.success "fresh" 3600)
      = { result := some "fresh", attempts := 1,
          cacheWrite := some
            ({ token := "fresh", expiresAt := 0 + 3600 * 1000 },
             (3600 : Int) - 60) } ∧
    getRedditAccessToken true none 0 .failure
      = { result := none, attempts := 1, cacheWrite := none } :=
  claim7_token_cache { token := "cached", expiresAt := 200000 }
    { token := "old", expiresAt := 50000 } 0 "fresh" 3600 .failure
    (by decide) (by decide)

/-! ### Forum-search adapter: fallback, de-duplication, sorting -/

/-- Helper: every element kept by `dedupByUrlAux seen l` occurs in `l`,
has a url outside `seen`, and is the first element of `l` with its url;
moreover the kept elements have pairwise-distinct urls. -/
theorem dedupByUrlAux_spec (l : List RedditPost) : ∀ (seen : List String),
    (∀ p ∈ dedupByUrlAux seen l,
      p ∈ l ∧ p.url ∉ seen ∧ l.find? (fun q => q.url == p.url) = some p) ∧
    (dedupByUrlAux seen l).Pairwise (fun a b => a.url ≠ b.url) := by
  induction l with
  | nil =>
    intro seen
    simp [dedupByUrlAux]
  | cons h t ih =>
    intro seen
    by_cases hm : h.url ∈ seen
    · have iht := ih seen
      simp only [dedupByUrlAux, if_pos hm]
      refine ⟨?_, iht.2⟩
      intro p hp
      obtain ⟨hpt, hpns, hfind⟩ := iht.1 p hp
      have hne : (h.url == p.url) = false := by
        simp only [beq_eq_false_iff_ne]
        intro heq
        exact hpns (heq ▸ hm)
      exact ⟨List.mem_cons_of_mem _ hpt, hpns,
        by rw [List.find?_cons_of_neg _ (by simp [hne]), hfind]⟩
    · have iht := ih (h.url :: seen)
      simp only [dedupByUrlAux, if_neg hm]
      constructor
      · intro p hp
        rcases List.mem_cons.mp hp with rfl | hp'
        · exact ⟨List.mem_cons_self _ _, hm,
            List.find?_cons_of_pos _ (by simp)⟩
        · obtain ⟨hpt, hpns, hfind⟩ := iht.1 p hp'
          have hnoth : p.url ∉ seen ∧ p.url ≠ h.url := by
            constructor
            · intro hc
              exact hpns (List.mem_cons_of_mem _ hc)
            · intro hc
              exact hpns (hc ▸ List.mem_cons_self _ _)
          refine ⟨List.mem_cons_of_mem _ hpt, hnoth.1, ?_⟩
          have hne : (h.url == p.url) = false := by
            simp only [beq_eq_false_iff_ne]
            exact fun heq => hnoth.2 heq.symm
          rw [List.find?_cons_of_neg _ (by simp [hne]), hfind]
      · refine List.pairwise_cons.mpr ⟨?_, iht.2⟩
        intro q hq
        have := (iht.1 q hq).2.1
        intro hc
        exact this (hc ▸ List.mem_cons_self _ _)

/-- Helper: membership in a descending insertion. -/
theorem mem_insertScoreDesc {p a : RedditPost} :
    ∀ {l : List RedditPost}, a ∈ insertScoreDesc p l ↔ a = p ∨ a ∈ l := by
  intro l
  induction l with
  | nil => simp [insertScoreDesc]
  | cons q qs ih =>
    by_cases hq : q.score < p.score
    · simp only [insertScoreDesc, if_pos hq, List.mem_cons]
    · simp only [insertScoreDesc, if_neg hq, List.mem_cons, ih]
      tauto

/-- Helper: descending insertion preserves the descending-score
invariant. -/
theorem pairwise_insertScoreDesc {p : RedditPost} :
    ∀ {l : List RedditPost},
    l.Pairwise (fun a b => b.score ≤ a.score) →
    (insertScoreDesc p l).Pairwise (fun a b => b.score ≤ a.score) := by
  intro l
  induction l with
  | nil =>
    intro _
    simp [insertScoreDesc]
  | cons q qs ih =>
    intro hl
    obtain ⟨hq, hqs⟩ := List.pairwise_cons.mp hl
    by_cases hlt : q.score < p.score
    · simp only [insertScoreDesc, if_pos hlt]
      refine List.pairwise_cons.mpr ⟨?_, hl⟩
      intro b hb
      rcases List.mem_cons.mp hb with rfl | hbq
      · omega
      · have := hq b hbq
        omega
    · simp only [insertScoreDesc, if_neg hlt]
      refine List.pairwise_cons.mpr ⟨?_, ih hqs⟩
      intro b hb
      rcases mem_insertScoreDesc.mp hb with rfl | hbq
      · omega
      · exact hq b hbq

/-- Helper: a descending insertion is a permutation of consing. -/
theorem perm_insertScoreDesc (p : RedditPost) :
    ∀ (l : List RedditPost), List.Perm (insertScoreDesc p l) (p :: l) := by
  intro l
  induction l with
  | nil => rfl
  | cons q qs ih =>
    by_cases hq : q.score < p.score
    · simp only [insertScoreDesc, if_pos hq]
      exact List.Perm.refl _
    · simp only [insertScoreDesc, if_neg hq]
      exact (List.Perm.cons q ih).trans (List.Perm.swap p q qs)

/-- Helper: the insertion-sort fold keeps the descending invariant of its
accumulator. -/
theorem pairwise_sortFold :
    ∀ (l acc : List RedditPost),
    acc.Pairwise (fun a b => b.score ≤ a.score) →
    (l.foldl (fun acc p => insertScoreDesc p acc) acc).Pairwise
      (fun a b => b.score ≤ a.score) := by
  intro l
  induction l with
  | nil =>
    intro acc h
    simpa using h
  | cons p ps ih =>
    intro acc h
    exact ih (insertScoreDesc p acc) (pairwise_insertScoreDesc h)

/-- Helper: the insertion-sort fold permutes its accumulator and input. -/
theorem perm_sortFold :
    ∀ (l acc : List RedditPost),
    List.Perm (l.foldl (fun acc p => insertScoreDesc p acc) acc)
      (acc ++ l) := by
  intro l
  induction l with
  | nil =>
    intro acc
    simp
  | cons p ps ih =>
    intro acc
    have h1 := ih (insertScoreDesc p acc)
    have h2 : List.Perm (insertScoreDesc p acc ++ ps) ((p :: acc) ++ ps) :=
      List.Perm.append_right ps (perm_insertScoreDesc p acc)
    have h3 : List.Perm (p :: (acc ++ ps)) (acc ++ p :: ps) :=
      List.perm_middle.symm
    exact (h1.trans h2).trans h3

/-- Helper: `sortByScoreDesc` permutes its input. -/
theorem sortByScoreDesc_perm (l : List RedditPost) :
    List.Perm (sortByScoreDesc l) l :=
  perm_sortFold l []

/-- C9: when OAuth credentials are configured and the authenticated search
returns zero results, the per-topic search returns exactly the public
endpoint's outcome (the fallback is attempted before returning); when
credentials are unavailable the public endpoint is used directly; and when
both paths return zero results the adapter returns the empty list rather
than an error. -/
theorem claim9_search_fallback (accessToken : Option String)
    (oauthApi publicApi : Except String (List RedditPost))
    (hasCreds : Bool) :
    (searchRedditWithOAuth accessToken oauthApi = [] →
      searchRedditTopic true accessToken oauthApi publicApi
        = searchRedditPublic publicApi) ∧
    searchRedditTopic false accessToken oauthApi publicApi
      = searchRedditPublic publicApi ∧
    (searchRedditWithOAuth accessToken oauthApi = [] →
      searchRedditPublic publicApi = [] →
      searchRedditTopic hasCreds accessToken oauthApi publicApi = []) := by
  refine ⟨?_, ?_, ?_⟩
  · intro h
    simp [searchRedditTopic, h]
  · simp [searchRedditTopic]
  · intro h1 h2
    cases hasCreds <;> simp [searchRedditTopic, h1, h2]

/-- Witness for C9 at concrete values: no obtainable token makes the OAuth
path empty, and a public path with zero results yields the empty list. -/
theorem claim9_witness :
    searchRedditTopic true none (.ok [samplePost1]) (.ok [])
      = searchRedditPublic (.ok []) ∧
    searchRedditTopic false none (.ok [samplePost1]) (.ok [])
      = searchRedditPublic (.ok []) ∧
    searchRedditTopic true none (.ok [samplePost1]) (.ok []) = [] := by
  have h := claim9_search_fallback none (.ok [samplePost1]) (.ok []) true
  exact ⟨h.1 rfl, h.2.1, h.2.2 rfl rfl⟩

/-- C10: for every pooled list of forum results, the processed output
contains at most 15 items, is sorted by score in descending order, has
pairwise-distinct canonical urls, and every output item is the first
occurrence in pooled order of its url. -/
theorem claim10_dedup_sort_truncate (allPosts : List RedditPost) :
    (processRedditPosts allPosts).length ≤ 15 ∧
    (processRedditPosts allPosts).Pairwise (fun a b => b.score ≤ a.score) ∧
    (processRedditPosts allPosts).Pairwise (fun a b => a.url ≠ b.url) ∧
    ∀ p ∈ processRedditPosts allPosts,
      allPosts.find? (fun q => q.url == p.url) = some p := by
  have hdedup := dedupByUrlAux_spec allPosts []
  have hsorted : (sortByScoreDesc (dedupByUrl allPosts)).Pairwise
      (fun a b => b.score ≤ a.score) :=
    pairwise_sortFold (dedupByUrl allPosts) [] (by simp)
  have hperm := sortByScoreDesc_perm (dedupByUrl allPosts)
  have hurl : (sortByScoreDesc (dedupByUrl allPosts)).Pairwise
      (fun a b => a.url ≠ b.url) := by
    have hsymm : ∀ {a b : RedditPost}, a.url ≠ b.url → b.url ≠ a.url :=
      fun h hc => h hc.symm
    exact (hperm.pairwise_iff hsymm).mpr hdedup.2
  refine ⟨?_, ?_, ?_, ?_⟩
  · exact List.length_take_le 15 (sortByScoreDesc (dedupByUrl allPosts))
  · exact List.Pairwise.sublist (List.take_sublist _ _) hsorted
  · exact List.Pairwise.sublist (List.take_sublist _ _) hurl
  · intro p hp
    have hmem : p ∈ sortByScoreDesc (dedupByUrl allPosts) :=
      (List.take_sublist _ _).subset hp
    have hd : p ∈ dedupByUrl allPosts := hperm.mem_iff.mp hmem
    exact (hdedup.1 p hd).2.2

/-- Witness for C10 on a concrete pool with a duplicated url: one
representative per url, descending scores, and the kept representative is
the pool's first occurrence. -/
theorem claim10_witness :
    (processRedditPosts samplePool).length ≤ 15 ∧
    (processRedditPosts samplePool).Pairwise (fun a b => b.score ≤ a.score) ∧
    (processRedditPosts samplePool).Pairwise (fun a b => a.url ≠ b.url) ∧
    samplePool.find? (fun q => q.url == samplePost2.url) = some samplePost2 := by
  have h := claim10_dedup_sort_truncate samplePool
  exact ⟨h.1, h.2.1, h.2.2.1, h.2.2.2 samplePost2 (by decide)⟩

/-! ### Adapter failure contract -/

/-- C4 as stated is false on the code: the catalog-lookup adapter
(`fetchChannelVideos`) and the completion adapter (`analyzeTopics`) raise
to their callers — here a throwing first provider call propagates instead
of yielding an empty result. -/
theorem claim4_counterexample :
    fetchChannelVideos none (.error "network timeout") (.ok [])
        (fun _ => .ok []) = .error "network timeout" ∧
    analyzeTopics none (.error "OpenAI request failed")
      = .error "OpenAI request failed" := by
  exact ⟨rfl, rfl⟩

/-- C4 amended: the news-fetch and forum-search adapters never raise — on
any transport, timeout or malformed-response condition they return the
empty list — whereas the catalog-lookup and completion operations do
raise: a throwing provider call propagates to the caller unchanged. -/
theorem claim4_amended_adapter_failure_contract :
    (∀ (hasKey : Bool) (e : String) (topics : List String),
      fetchRelevantNews hasKey (.error e) topics = []) ∧
    (∀ (tokOpt : Option String) (e : String),
      searchRedditWithOAuth tokOpt (.error e) = []) ∧
    (∀ e : String, searchRedditPublic (.error e) = []) ∧
    (∀ (hasOAuth : Bool) (tokOpt : Option String) (e1 e2 : String)
        (topics : List String),
      searchRedditPosts hasOAuth tokOpt (fun _ => .error e1)
        (fun _ => .error e2) topics = []) ∧
    (∀ e : String, analyzeTopics none (.error e) = .error e) ∧
    (∀ (e : String) (items : Except String (List (Option String)))
        (videosApi : List String → Except String (List YouTubeVideo)),
      fetchChannelVideos none (.error e) items videosApi = .error e) := by
  refine ⟨?_, ?_, ?_, ?_, ?_, ?_⟩
  · intro hasKey e topics
    cases hasKey <;> simp [fetchRelevantNews]
  · intro tokOpt e
    cases tokOpt <;> rfl
  · intro e
    rfl
  · intro hasOAuth tokOpt e1 e2 topics
    have htopic : searchRedditTopic hasOAuth tokOpt (.error e1)
        (.error e2) = [] := by
      cases hasOAuth <;> cases tokOpt <;>
        simp [searchRedditTopic, searchRedditWithOAuth, searchRedditPublic]
    have hflat : ∀ l : List String, (l.flatMap
        (fun _ => searchRedditTopic hasOAuth tokOpt (.error e1) (.error e2)))
        = [] := by
      intro l
      induction l with
      | nil => rfl
      | cons a as ih => simp [List.flatMap_cons, htopic, ih]
    by_cases hz : topics.length = 0
    · simp [searchRedditPosts, hz]
    · simp only [searchRedditPosts, if_neg hz, hflat]
      rfl
  · intro e
    rfl
  · intro e items videosApi
    rfl

/-! ### Streaming orchestrator -/

/-- C2: every pipeline run emits exactly one terminal event — one
`complete` or one `error`, never both. -/
theorem claim2_exactly_one_terminal_event (i : PipelineInput) :
    (runPipeline i).1.countP StreamEvent.isTerminal = 1 := by
  obtain ⟨ip, rj, keys, cid, crl, vf, ta, ns, rs, ig⟩ := i
  cases hip : ip.allowed with
  | false => simp [runPipeline, hip, StreamEvent.isTerminal]
  | true =>
  cases rj with
  | error e => simp [runPipeline, hip, StreamEvent.isTerminal]
  | ok url =>
  cases url with
  | none => simp [runPipeline, hip, StreamEvent.isTerminal]
  | some u =>
  cases keys with
  | false => simp [runPipeline, hip, StreamEvent.isTerminal]
  | true =>
  cases cid with
  | none => simp [runPipeline, hip, StreamEvent.isTerminal]
  | some c =>
  cases hcrl : crl.allowed with
  | false => simp [runPipeline, hip, hcrl, StreamEvent.isTerminal]
  | true =>
  cases vf with
  | error e => simp [runPipeline, hip, hcrl, StreamEvent.isTerminal]
  | ok vcn =>
  obtain ⟨vs, cn⟩ := vcn
  cases ta with
  | error e => simp [runPipeline, hip, hcrl, StreamEvent.isTerminal]
  | ok tr =>
  cases ns with
  | error en =>
    cases rs with
    | error er =>
      cases hig : ig [] [] with
      | error ei =>
        simp [runPipeline, hip, hcrl, hig, StreamEvent.isTerminal]
      | ok ideas =>
        simp [runPipeline, hip, hcrl, hig, StreamEvent.isTerminal]
    | ok r =>
      cases hig : ig [] r with
      | error ei =>
        by_cases hr : r.length > 0 <;>
          simp [runPipeline, hip, hcrl, hig, hr, StreamEvent.isTerminal]
      | ok ideas =>
        by_cases hr : r.length > 0 <;>
          simp [runPipeline, hip, hcrl, hig, hr, StreamEvent.isTerminal]
  | ok n =>
    cases rs with
    | error er =>
      cases hig : ig n [] with
      | error ei =>
        by_cases hn : n.length > 0 <;>
          simp [runPipeline, hip, hcrl, hig, hn, StreamEvent.isTerminal]
      | ok ideas =>
        by_cases hn : n.length > 0 <;>
          simp [runPipeline, hip, hcrl, hig, hn, StreamEvent.isTerminal]
    | ok r =>
      cases hig : ig n r with
      | error ei =>
        by_cases hn : n.length > 0 <;> by_cases hr : r.length > 0 <;>
          simp [runPipeline, hip, hcrl, hig, hn, hr, StreamEvent.isTerminal]
      | ok ideas =>
        by_cases hn : n.length > 0 <;> by_cases hr : r.length > 0 <;>
          simp [runPipeline, hip, hcrl, hig, hn, hr, StreamEvent.isTerminal]

/-- C1: in a run where channel resolution succeeds, videos and topics are
obtained, the news fetch rejects and the Reddit fetch fulfills with a
non-empty list, the orchestrator substitutes the empty list for the failed
news branch, still invokes idea generation with the empty news list and
the fetched Reddit posts, emits no news event and no error event, and
terminates with a `complete` event. -/
theorem claim1_news_failure_isolated (i : PipelineInput) (url cid : String)
    (vr : List YouTubeVideo × String) (tr : TopicAnalysis) (e : String)
    (posts : List RedditPost) (ideas : List VideoIdea)
    (h1 : i.ipRateLimit.allowed = true)
    (h2 : i.reqJson = .ok (some url))
    (h3 : i.keysConfigured = true)
    (h4 : i.channelId = some cid)
    (h5 : i.channelRateLimit.allowed = true)
    (h6 : i.videosFetch = .ok vr)
    (h7 : i.topicsAnalyze = .ok tr)
    (h8 : i.newsSettled = .error e)
    (h9 : i.redditSettled = .ok posts)
    (hne : posts ≠ [])
    (h10 : i.ideasGenerate [] posts = .ok ideas) :
    (runPipeline i).1 =
      [.status "Fetching channel videos...", .videos vr.1 vr.2,
       .status "Analyzing topics...", .topics tr,
       .status "Fetching news and Reddit discussions...", .reddit posts,
       .status "Generating video ideas...", .ideas ideas, .complete] ∧
    (runPipeline i).2 = some ([], posts) ∧
    (∀ n, StreamEvent.news n ∉ (runPipeline i).1) ∧
    (∀ m, StreamEvent.error m ∉ (runPipeline i).1) ∧
    (runPipeline i).1.getLast? = some StreamEvent.complete := by
  obtain ⟨vs, cn⟩ := vr
  have hpos : 0 < posts.length := List.length_pos.mpr hne
  have hrun : runPipeline i =
      ([.status "Fetching channel videos...", .videos vs cn,
        .status "Analyzing topics...", .topics tr,
        .status "Fetching news and Reddit discussions...", .reddit posts,
        .status "Generating video ideas...", .ideas ideas, .complete],
       some ([], posts)) := by
    simp [runPipeline, h1, h2, h3, h4, h5, h6, h7, h8, h9, h10, hpos]
  refine ⟨by rw [hrun], by rw [hrun], ?_, ?_, by rw [hrun]; rfl⟩
  · intro n
    rw [hrun]
    simp
  · intro m
    rw [hrun]
    simp

/-- Witness for C1 at the concrete scenario input `claim1Input`: the news
oracle rejects, the Reddit oracle fulfills with three posts, and the run
streams videos, topics, reddit and ideas before completing. -/
theorem claim1_witness :
    (runPipeline claim1Input).1 =
      [.status "Fetching channel videos...", .videos [sampleVideo] "Chan",
       .status "Analyzing topics...", .topics sampleTopics,
       .status "Fetching news and Reddit discussions...",
       .reddit [samplePost1, samplePost2, samplePost3],
       .status "Generating video ideas...", .ideas [sampleIdea],
       .complete] ∧
    (runPipeline claim1Input).2
      = some ([], [samplePost1, samplePost2, samplePost3]) := by
  have h := claim1_news_failure_isolated claim1Input
    "https://www.youtube.com/@chan" "UC123" ([sampleVideo], "Chan")
    sampleTopics "news api down" [samplePost1, samplePost2, samplePost3]
    [sampleIdea] rfl rfl rfl rfl rfl rfl rfl rfl rfl (by decide) rfl
  exact ⟨h.1, h.2.1⟩

/-- C3 as stated is false on the code: in a run whose idea-generation
stage succeeds with the empty list, the orchestrator still emits the
`ideas` payload event carrying the empty list — the empty-payload guard
covers only the news and reddit stages. -/
theorem claim3_counterexample :
    StreamEvent.ideas [] ∈ (runPipeline claim3EmptyIdeasInput).1 ∧
    claim3EmptyIdeasInput.ideasGenerate [] [] = .ok [] := by
  exact ⟨by decide, rfl⟩

/-- C3 amended: only the news and reddit stage payloads are guarded on
non-emptiness — whenever a `news` or `reddit` event is emitted, its
payload is non-empty (an empty list for one of those stages produces no
event for it); the `videos`, `topics` and `ideas` payload events are
emitted on stage success even when their payload is empty. -/
theorem claim3_amended_guarded_stages (i : PipelineInput) :
    (∀ n, StreamEvent.news n ∈ (runPipeline i).1 → n ≠ []) ∧
    (∀ r, StreamEvent.reddit r ∈ (runPipeline i).1 → r ≠ []) := by
  obtain ⟨ip, rj, keys, cid, crl, vf, ta, ns, rs, ig⟩ := i
  cases hip : ip.allowed with
  | false => simp [runPipeline, hip]
  | true =>
  cases rj with
  | error e => simp [runPipeline, hip]
  | ok url =>
  cases url with
  | none => simp [runPipeline, hip]
  | some u =>
  cases keys with
  | false => simp [runPipeline, hip]
  | true =>
  cases cid with
  | none => simp [runPipeline, hip]
  | some c =>
  cases hcrl : crl.allowed with
  | false => simp [runPipeline, hip, hcrl]
  | true =>
  cases vf with
  | error e => simp [runPipeline, hip, hcrl]
  | ok vcn =>
  obtain ⟨vs, cn⟩ := vcn
  cases ta with
  | error e => simp [runPipeline, hip, hcrl]
  | ok tr =>
  cases ns with
  | error en =>
    cases rs with
    | error er =>
      cases hig : ig [] [] with
      | error ei => simp [runPipeline, hip, hcrl, hig]
      | ok ideas => simp [runPipeline, hip, hcrl, hig]
    | ok r =>
      cases hig : ig [] r with
      | error ei =>
        by_cases hr : r.length > 0 <;>
          simp [runPipeline, hip, hcrl, hig, hr, ← List.length_pos]
      | ok ideas =>
        by_cases hr : r.length > 0 <;>
          simp [runPipeline, hip, hcrl, hig, hr, ← List.length_pos]
  | ok n =>
    cases rs with
    | error er =>
      cases hig : ig n [] with
      | error ei =>
        by_cases hn : n.length > 0 <;>
          simp [runPipeline, hip, hcrl, hig, hn, ← List.length_pos]
      | ok ideas =>
        by_cases hn : n.length > 0 <;>
          simp [runPipeline, hip, hcrl, hig, hn, ← List.length_pos]
    | ok r =>
      cases hig : ig n r with
      | error ei =>
        by_cases hn : n.length > 0 <;> by_cases hr : r.length > 0 <;>
          simp [runPipeline, hip, hcrl, hig, hn, hr, ← List.length_pos]
      | ok ideas =>
        by_cases hn : n.length > 0 <;> by_cases hr : r.length > 0 <;>
          simp [runPipeline, hip, hcrl, hig, hn, hr, ← List.length_pos]

/-- Witness for the amended C3 at a concrete run whose news fetch
fulfills with one article: the emitted news event's payload is
non-empty. -/
theorem claim3_witness :
    StreamEvent.news [sampleArticle] ∈ (runPipeline claim3NewsInput).1 ∧
    [sampleArticle] ≠ ([] : List NewsArticle) :=
  ⟨by decide,
   (claim3_amended_guarded_stages claim3NewsInput).1 [sampleArticle]
     (by decide)⟩

end TubeAI
